import Mathlib

/-!
Verification of the "Dodge" game simulation core (src/main.cpp).

The per-frame simulation loop is shallowly embedded over an arbitrary
linear ordered field `K` (instantiated at `ℚ` for executable witnesses
and at `ℝ` where the square root of the movement normalisation matters).
The library RNG `GetRandomValue(lo, hi)` is modelled as an oracle
`g : ℕ → ℤ → ℤ → ℤ` indexed by a call counter, constrained by `RNGok`
to return a value inside the inclusive bounds; `sqrtf` is a parameter
`sq : K → K`, instantiated at `Real.sqrt`.
-/

namespace Dodge

/-- Mirrors the raylib `Rectangle` (x, y, width, height). -/
structure Rectangle (K : Type) where
  x : K
  y : K
  width : K
  height : K
deriving DecidableEq

/-- Mirrors `struct Player { Rectangle rect; float speed = 260.0f; }`. -/
structure Player (K : Type) where
  rect : Rectangle K
  speed : K
deriving DecidableEq

/-- Mirrors `struct Enemy { Rectangle rect; float speedY; int kind; }`. -/
structure Enemy (K : Type) where
  rect : Rectangle K
  speedY : K
  kind : ℤ
deriving DecidableEq

/-- Mirrors `enum class GameState { MENU, PLAYING, GAME_OVER }`. -/
inductive GameState
  | MENU
  | PLAYING
  | GAME_OVER
deriving DecidableEq

/-- `static const int SCREEN_W = 800`. -/
def SCREEN_W : ℤ := 800

/-- `static const int SCREEN_H = 450`. -/
def SCREEN_H : ℤ := 450

/-- An RNG oracle: call number, lower bound, upper bound to value,
modelling successive calls of the raylib `GetRandomValue`. -/
def RNG : Type := ℕ → ℤ → ℤ → ℤ

/-- The contract of `GetRandomValue(lo, hi)`: the result lies in the
inclusive range `[lo, hi]` whenever the bounds are ordered. -/
def RNGok (g : RNG) : Prop :=
  ∀ n lo hi, lo ≤ hi → lo ≤ g n lo hi ∧ g n lo hi ≤ hi

/-- Oracle that always returns the lower bound. -/
def gLo : RNG := fun _ lo _ => lo

/-- Oracle that always returns the upper bound. -/
def gHi : RNG := fun _ _ hi => hi

theorem gLo_ok : RNGok gLo := fun _ _ _ h => ⟨le_refl _, h⟩

theorem gHi_ok : RNGok gHi := fun _ _ _ h => ⟨h, le_refl _⟩

/-- Mirrors `void SetWeather(int kind) { gWeather = (WeatherKind)kind; }`:
the raw integer replaces the previous weather value, unvalidated. -/
def SetWeather (kind : ℤ) (gWeather : ℤ) : ℤ := kind

section Defs

variable (K : Type) [LinearOrderedField K] [FloorRing K]

/-- The C `(int)` cast on a float: truncation toward zero. -/
def ctrunc (q : K) : ℤ := if 0 ≤ q then ⌊q⌋ else ⌈q⌉

/-- Spawn of one enemy inside the loop body of `ResetGame` (src/main.cpp:89-112):
`x = GetRandomValue(0, SCREEN_W - 40)`, `y = GetRandomValue(-SCREEN_H, -20)`,
then kind-dependent width/height/speed.  Returns the enemy and the advanced
RNG call counter. -/
def spawnEnemy (g : RNG) (n : ℕ) (gWeather : ℤ) : Enemy K × ℕ :=
  let kind : ℤ := gWeather
  let x : K := ((g n 0 (SCREEN_W - 40) : ℤ) : K)
  let y : K := ((g (n + 1) (-SCREEN_H) (-20) : ℤ) : K)
  if kind = 2 then
    (⟨⟨x, y, ((g (n + 2) 3 6 : ℤ) : K), ((g (n + 3) 14 24 : ℤ) : K)⟩,
      180 + ((g (n + 4) 40 180 : ℤ) : K), kind⟩, n + 5)
  else if kind = 1 then
    (⟨⟨x, y, ((g (n + 2) 40 72 : ℤ) : K), ((g (n + 3) 24 40 : ℤ) : K)⟩,
      100 + ((g (n + 4) 20 80 : ℤ) : K), kind⟩, n + 5)
  else
    (⟨⟨x, y, ((g (n + 2) 18 30 : ℤ) : K), ((g (n + 2) 18 30 : ℤ) : K)⟩,
      140 + ((g (n + 3) 20 120 : ℤ) : K), kind⟩, n + 4)

/-- The spawn loop of `ResetGame`: `enemyCount` successive spawns threading
the RNG counter. -/
def spawnEnemies (g : RNG) (gWeather : ℤ) : ℕ → ℕ → List (Enemy K) × ℕ
  | 0, n => ([], n)
  | Nat.succ c, n =>
    let r := spawnEnemy K g n gWeather
    let rest := spawnEnemies g gWeather c r.2
    (r.1 :: rest.1, rest.2)

/-- Mirrors `ResetGame(player, enemies, enemyCount, score)`
(src/main.cpp:80-116): re-centres the player rectangle (speed untouched),
replaces the enemy list by fresh spawns, and zeroes the score. -/
def ResetGame (g : RNG) (n : ℕ) (gWeather : ℤ) (enemyCount : ℕ)
    (player : Player K) : Player K × List (Enemy K) × K × ℕ :=
  let p : Player K :=
    ⟨⟨(SCREEN_W : K) / 2 - 18, (SCREEN_H : K) - 70, 36, 36⟩, player.speed⟩
  let r := spawnEnemies K g gWeather enemyCount n
  (p, r.1, 0, r.2)

/-- The movement vector built from the four directional key states
(src/main.cpp:162-168): `+1` per pressed positive key, `-1` per pressed
negative key, before normalisation. -/
def moveVec (kRight kLeft kDown kUp : Bool) : K × K :=
  ((if kRight then (1 : K) else 0) - (if kLeft then (1 : K) else 0),
   (if kDown then (1 : K) else 0) - (if kUp then (1 : K) else 0))

/-- Normalisation of the movement vector (src/main.cpp:171-175): skipped
when both components are zero, otherwise divide by `sq` of the squared
length (`sqrtf` modelled by the parameter `sq`). -/
def normalizeMove (sq : K → K) (m : K × K) : K × K :=
  if m.1 ≠ 0 ∨ m.2 ≠ 0 then
    let len := sq (m.1 * m.1 + m.2 * m.2)
    (m.1 / len, m.2 / len)
  else m

/-- The per-frame player displacement (src/main.cpp:178-180):
normalised direction times `speed * dt`, componentwise. -/
def displacement (sq : K → K) (kRight kLeft kDown kUp : Bool)
    (speed dt : K) : K × K :=
  let mv := normalizeMove K sq (moveVec K kRight kLeft kDown kUp)
  (mv.1 * speed * dt, mv.2 * speed * dt)

/-- The clamp of the player rectangle to the screen (src/main.cpp:183-188),
in the source order: left, top, right, bottom. -/
def clampPlayer (r : Rectangle K) : Rectangle K :=
  let x1 := if r.x < 0 then 0 else r.x
  let y1 := if r.y < 0 then 0 else r.y
  let x2 := if x1 + r.width > (SCREEN_W : K) then (SCREEN_W : K) - r.width else x1
  let y2 := if y1 + r.height > (SCREEN_H : K) then (SCREEN_H : K) - r.height else y1
  ⟨x2, y2, r.width, r.height⟩

/-- the raylib `CheckCollisionRecs`: strict axis-aligned overlap. -/
def CheckCollisionRecs (a b : Rectangle K) : Prop :=
  a.x < b.x + b.width ∧ a.x + a.width > b.x ∧
    a.y < b.y + b.height ∧ a.y + a.height > b.y

instance (a b : Rectangle K) : Decidable (CheckCollisionRecs K a b) :=
  inferInstanceAs (Decidable (a.x < b.x + b.width ∧ a.x + a.width > b.x ∧
    a.y < b.y + b.height ∧ a.y + a.height > b.y))

/-- The fall-and-maybe-recycle update (src/main.cpp:198-211): fall
by `speedY * dt`; if the new y exceeds `SCREEN_H + 10`, draw a fresh
`y ∈ [-200,-20]`, a fresh `x ∈ [0, SCREEN_W - (int)width]`, and a fresh
speed from the range of the existing kind.  Returns the updated enemy and the
advanced RNG counter. -/
def updateEnemy (g : RNG) (dt : K) (e : Enemy K) (n : ℕ) : Enemy K × ℕ :=
  let y1 := e.rect.y + e.speedY * dt
  if y1 > (SCREEN_H : K) + 10 then
    let y2 : K := ((g n (-200) (-20) : ℤ) : K)
    let x2 : K := ((g (n + 1) 0 (SCREEN_W - ctrunc K e.rect.width) : ℤ) : K)
    let sp : K :=
      if e.kind = 2 then 180 + ((g (n + 2) 40 180 : ℤ) : K)
      else if e.kind = 1 then 100 + ((g (n + 2) 20 80 : ℤ) : K)
      else 140 + ((g (n + 2) 20 120 : ℤ) : K)
    (⟨⟨x2, y2, e.rect.width, e.rect.height⟩, sp, e.kind⟩, n + 3)
  else
    (⟨⟨e.rect.x, y1, e.rect.width, e.rect.height⟩, e.speedY, e.kind⟩, n)

/-- The enemy loop of a Playing frame (src/main.cpp:198-220): update each
enemy in order, and on overlap with the (already clamped) player rectangle
set the state to GAME_OVER and raise `bestScore` to the truncated score. -/
def stepEnemies (g : RNG) (dt : K) (pr : Rectangle K) (score : K) :
    List (Enemy K) → GameState → ℤ → ℕ → List (Enemy K) × GameState × ℤ × ℕ
  | [], st, best, n => ([], st, best, n)
  | e :: es, st, best, n =>
    let r := updateEnemy K g dt e n
    let st1 := if CheckCollisionRecs K pr r.1.rect then GameState.GAME_OVER else st
    let best1 :=
      if CheckCollisionRecs K pr r.1.rect ∧ best < ctrunc K score then ctrunc K score
      else best
    let rest := stepEnemies g dt pr score es st1 best1 r.2
    (r.1 :: rest.1, rest.2)

/-- The per-frame inputs: directional key levels (`IsKeyDown`), the
edge-triggered keys (`IsKeyPressed`), and the frame time `dt`. -/
structure Inputs (K : Type) where
  kRight : Bool
  kLeft : Bool
  kDown : Bool
  kUp : Bool
  kSpace : Bool
  kEnter : Bool
  kR : Bool
  kEsc : Bool
  kF1 : Bool
  kF2 : Bool
  kF3 : Bool
  dt : K

/-- The mutable state of the loop of `main`: game state, player, enemies,
score, best score, the weather global, and the RNG call counter. -/
structure GameSt (K : Type) where
  state : GameState
  player : Player K
  enemies : List (Enemy K)
  score : K
  bestScore : ℤ
  gWeather : ℤ
  rngIdx : ℕ

/-- `const int ENEMY_COUNT = 10`. -/
def ENEMY_COUNT : ℕ := 10

/-- One iteration of the update section of the main loop
(src/main.cpp:149-240), by cases on the current state:
menu start, playing step (movement, clamp, weather override keys,
enemy loop, score accrual), and the game-over restart/back keys. -/
def frame (g : RNG) (sq : K → K) (inp : Inputs K) (s : GameSt K) : GameSt K :=
  if s.state = GameState.MENU then
    if inp.kSpace || inp.kEnter then
      let r := ResetGame K g s.rngIdx s.gWeather ENEMY_COUNT s.player
      { s with state := GameState.PLAYING, player := r.1, enemies := r.2.1,
               score := r.2.2.1, rngIdx := r.2.2.2 }
    else s
  else if s.state = GameState.PLAYING then
    let d := displacement K sq inp.kRight inp.kLeft inp.kDown inp.kUp
      s.player.speed inp.dt
    let pr := clampPlayer K ⟨s.player.rect.x + d.1, s.player.rect.y + d.2,
      s.player.rect.width, s.player.rect.height⟩
    let w1 : ℤ := if inp.kF1 then 0 else s.gWeather
    let w2 : ℤ := if inp.kF2 then 1 else w1
    let w3 : ℤ := if inp.kF3 then 2 else w2
    let r := stepEnemies K g inp.dt pr s.score s.enemies GameState.PLAYING
      s.bestScore s.rngIdx
    { state := r.2.1, player := ⟨pr, s.player.speed⟩, enemies := r.1,
      score := s.score + 60 * inp.dt, bestScore := r.2.2.1,
      gWeather := w3, rngIdx := r.2.2.2 }
  else
    let s1 :=
      if inp.kR then
        let r := ResetGame K g s.rngIdx s.gWeather ENEMY_COUNT s.player
        { s with state := GameState.PLAYING, player := r.1, enemies := r.2.1,
                 score := r.2.2.1, rngIdx := r.2.2.2 }
      else s
    if inp.kEsc then { s1 with state := GameState.MENU } else s1

end Defs

/-- The identity map on `ℚ`, used as a dummy square-root parameter where
the normalisation value is irrelevant. -/
def sqId : ℚ → ℚ := fun q => q

section Helper

variable (K : Type) [LinearOrderedField K] [FloorRing K]

/-- The clamped player rectangle of a Playing frame: previous rectangle
displaced by the movement, then clamped. -/
def playingRect (sq : K → K) (inp : Inputs K) (s : GameSt K) : Rectangle K :=
  clampPlayer K
    ⟨s.player.rect.x + (displacement K sq inp.kRight inp.kLeft inp.kDown inp.kUp
        s.player.speed inp.dt).1,
     s.player.rect.y + (displacement K sq inp.kRight inp.kLeft inp.kDown inp.kUp
        s.player.speed inp.dt).2,
     s.player.rect.width, s.player.rect.height⟩

/-- The weather value after the F1/F2/F3 override keys of a Playing frame. -/
def playingWeather (inp : Inputs K) (w : ℤ) : ℤ :=
  if inp.kF3 then 2 else if inp.kF2 then 1 else if inp.kF1 then 0 else w

theorem frame_playing (g : RNG) (sq : K → K) (inp : Inputs K) (s : GameSt K)
    (h : s.state = GameState.PLAYING) :
    frame K g sq inp s =
      ⟨(stepEnemies K g inp.dt (playingRect K sq inp s) s.score s.enemies
          GameState.PLAYING s.bestScore s.rngIdx).2.1,
       ⟨playingRect K sq inp s, s.player.speed⟩,
       (stepEnemies K g inp.dt (playingRect K sq inp s) s.score s.enemies
          GameState.PLAYING s.bestScore s.rngIdx).1,
       s.score + 60 * inp.dt,
       (stepEnemies K g inp.dt (playingRect K sq inp s) s.score s.enemies
          GameState.PLAYING s.bestScore s.rngIdx).2.2.1,
       playingWeather K inp s.gWeather,
       (stepEnemies K g inp.dt (playingRect K sq inp s) s.score s.enemies
          GameState.PLAYING s.bestScore s.rngIdx).2.2.2⟩ := by
  simp [frame, h, playingRect, playingWeather]

theorem frame_gameOver_score (g : RNG) (sq : K → K) (inp : Inputs K)
    (s : GameSt K) (h : s.state = GameState.GAME_OVER) (hr : inp.kR = false) :
    (frame K g sq inp s).score = s.score := by
  by_cases he : inp.kEsc <;> simp [frame, h, hr, he]

theorem frame_gameOver_restart (g : RNG) (sq : K → K) (inp : Inputs K)
    (s : GameSt K) (h : s.state = GameState.GAME_OVER) (hr : inp.kR = true)
    (he : inp.kEsc = true) :
    frame K g sq inp s =
      { s with
        state := GameState.MENU
        player := (ResetGame K g s.rngIdx s.gWeather ENEMY_COUNT s.player).1
        enemies := (ResetGame K g s.rngIdx s.gWeather ENEMY_COUNT s.player).2.1
        score := 0
        rngIdx := (ResetGame K g s.rngIdx s.gWeather ENEMY_COUNT s.player).2.2.2 } := by
  simp [frame, h, hr, he, ResetGame]

theorem clampPlayer_bounds (r : Rectangle K) (hw : r.width ≤ ((SCREEN_W : ℤ) : K))
    (hh : r.height ≤ ((SCREEN_H : ℤ) : K)) :
    0 ≤ (clampPlayer K r).x ∧
      (clampPlayer K r).x ≤ ((SCREEN_W : ℤ) : K) - (clampPlayer K r).width ∧
      0 ≤ (clampPlayer K r).y ∧
      (clampPlayer K r).y ≤ ((SCREEN_H : ℤ) : K) - (clampPlayer K r).height := by
  dsimp only [clampPlayer]
  refine ⟨?_, ?_, ?_, ?_⟩ <;> (split_ifs with h1 h2 <;> linarith)

theorem max_if_lt (a b : ℤ) : (if a < b then b else a) = max a b := by
  rcases lt_or_le a b with h | h
  · simp [h, max_eq_right h.le]
  · simp [h.not_lt, max_eq_left h]

theorem stepEnemies_spec (g : RNG) (dt : K) (pr : Rectangle K) (sc : K) :
    ∀ (es : List (Enemy K)) (st : GameState) (best : ℤ) (n : ℕ),
      (stepEnemies K g dt pr sc es st best n).2.1 =
        (if ∃ e ∈ (stepEnemies K g dt pr sc es st best n).1,
            CheckCollisionRecs K pr e.rect then GameState.GAME_OVER else st) ∧
      (stepEnemies K g dt pr sc es st best n).2.2.1 =
        (if ∃ e ∈ (stepEnemies K g dt pr sc es st best n).1,
            CheckCollisionRecs K pr e.rect then max best (ctrunc K sc) else best) := by
  intro es
  induction es with
  | nil =>
    intro st best n
    simp [stepEnemies]
  | cons e es ih =>
    intro st best n
    simp only [stepEnemies, List.exists_mem_cons_iff]
    by_cases hc : CheckCollisionRecs K pr (updateEnemy K g dt e n).1.rect
    · simp only [hc, if_true, true_and, true_or, if_pos]
      rw [max_if_lt]
      obtain ⟨ih1, ih2⟩ := ih GameState.GAME_OVER (max best (ctrunc K sc))
        (updateEnemy K g dt e n).2
      constructor
      · rw [ih1]
        simp
      · rw [ih2]
        by_cases ht : ∃ x ∈ (stepEnemies K g dt pr sc es GameState.GAME_OVER
            (max best (ctrunc K sc)) (updateEnemy K g dt e n).2).1,
            CheckCollisionRecs K pr x.rect
        · simp [ht, max_assoc]
        · simp [ht]
    · simp only [hc, if_false, false_and, false_or, if_neg]
      exact ih st best (updateEnemy K g dt e n).2

end Helper

section Spawn

variable (K : Type) [LinearOrderedField K] [FloorRing K]

theorem spawnEnemies_length (g : RNG) (w : ℤ) :
    ∀ (cnt n : ℕ), ((spawnEnemies K g w cnt n).1).length = cnt := by
  intro cnt
  induction cnt with
  | zero =>
    intro n
    simp [spawnEnemies]
  | succ c ih =>
    intro n
    simp [spawnEnemies, ih]

theorem spawnEnemies_mem (g : RNG) (w : ℤ) (P : Enemy K → Prop)
    (hP : ∀ m, P (spawnEnemy K g m w).1) :
    ∀ (cnt n : ℕ), ∀ e ∈ (spawnEnemies K g w cnt n).1, P e := by
  intro cnt
  induction cnt with
  | zero =>
    intro n e he
    simp [spawnEnemies] at he
  | succ c ih =>
    intro n e he
    simp only [spawnEnemies, List.mem_cons] at he
    rcases he with h | h
    · rw [h]
      exact hP n
    · exact ih _ e h

theorem spawnEnemy_eq_two (g : RNG) (m : ℕ) (w : ℤ) (h : w = 2) :
    (spawnEnemy K g m w).1 =
      ⟨⟨((g m 0 (SCREEN_W - 40) : ℤ) : K), ((g (m + 1) (-SCREEN_H) (-20) : ℤ) : K),
        ((g (m + 2) 3 6 : ℤ) : K), ((g (m + 3) 14 24 : ℤ) : K)⟩,
       180 + ((g (m + 4) 40 180 : ℤ) : K), w⟩ := by
  subst h
  simp [spawnEnemy]

theorem spawnEnemy_eq_one (g : RNG) (m : ℕ) (w : ℤ) (h : w = 1) :
    (spawnEnemy K g m w).1 =
      ⟨⟨((g m 0 (SCREEN_W - 40) : ℤ) : K), ((g (m + 1) (-SCREEN_H) (-20) : ℤ) : K),
        ((g (m + 2) 40 72 : ℤ) : K), ((g (m + 3) 24 40 : ℤ) : K)⟩,
       100 + ((g (m + 4) 20 80 : ℤ) : K), w⟩ := by
  subst h
  simp [spawnEnemy]

theorem spawnEnemy_eq_other (g : RNG) (m : ℕ) (w : ℤ) (h2 : w ≠ 2) (h1 : w ≠ 1) :
    (spawnEnemy K g m w).1 =
      ⟨⟨((g m 0 (SCREEN_W - 40) : ℤ) : K), ((g (m + 1) (-SCREEN_H) (-20) : ℤ) : K),
        ((g (m + 2) 18 30 : ℤ) : K), ((g (m + 2) 18 30 : ℤ) : K)⟩,
       140 + ((g (m + 3) 20 120 : ℤ) : K), w⟩ := by
  simp [spawnEnemy, h2, h1]

theorem spawnEnemy_x (g : RNG) (m : ℕ) (w : ℤ) :
    (spawnEnemy K g m w).1.rect.x = ((g m 0 (SCREEN_W - 40) : ℤ) : K) := by
  unfold spawnEnemy
  dsimp only
  split_ifs <;> rfl

theorem updateEnemy_recycle_y (g : RNG) (dt : K) (e : Enemy K) (n : ℕ)
    (h : (SCREEN_H : K) + 10 < e.rect.y + e.speedY * dt) :
    (updateEnemy K g dt e n).1.rect.y = ((g n (-200) (-20) : ℤ) : K) := by
  unfold updateEnemy
  dsimp only
  rw [if_pos h]

theorem updateEnemy_kind (g : RNG) (dt : K) (e : Enemy K) (n : ℕ) :
    (updateEnemy K g dt e n).1.kind = e.kind := by
  unfold updateEnemy
  dsimp only
  split_ifs <;> rfl

theorem updateEnemy_pos_bounds (g : RNG) (hg : RNGok g) (dt : K) (e : Enemy K)
    (n : ℕ) (wi : ℤ) (hwz : e.rect.width = (wi : K)) (hw0 : 0 ≤ wi)
    (hw8 : wi ≤ SCREEN_W)
    (hy : (SCREEN_H : K) + 10 < e.rect.y + e.speedY * dt) :
    (-200 ≤ (updateEnemy K g dt e n).1.rect.y ∧
      (updateEnemy K g dt e n).1.rect.y ≤ -20) ∧
    (0 ≤ (updateEnemy K g dt e n).1.rect.x ∧
      (updateEnemy K g dt e n).1.rect.x + e.rect.width ≤ ((SCREEN_W : ℤ) : K)) := by
  have hct : ctrunc K e.rect.width = wi := by
    rw [hwz]
    unfold ctrunc
    rw [if_pos (by exact_mod_cast hw0)]
    exact Int.floor_intCast wi
  unfold updateEnemy
  dsimp only
  rw [if_pos hy]
  dsimp only
  rw [hct]
  have hyb := hg n (-200) (-20) (by norm_num)
  have hxb := hg (n + 1) 0 (SCREEN_W - wi) (Int.sub_nonneg.mpr hw8)
  refine ⟨⟨?_, ?_⟩, ?_, ?_⟩
  · exact_mod_cast hyb.1
  · exact_mod_cast hyb.2
  · exact_mod_cast hxb.1
  · rw [hwz]
    have hx2 : ((g (n + 1) 0 (SCREEN_W - wi) : ℤ) : K) ≤ ((SCREEN_W - wi : ℤ) : K) := by
      exact_mod_cast hxb.2
    push_cast at hx2
    push_cast
    linarith

theorem updateEnemy_speed_bounds (g : RNG) (hg : RNGok g) (dt : K) (e : Enemy K)
    (n : ℕ) (hy : (SCREEN_H : K) + 10 < e.rect.y + e.speedY * dt) :
    (e.kind = 2 → 220 ≤ (updateEnemy K g dt e n).1.speedY ∧
        (updateEnemy K g dt e n).1.speedY ≤ 360) ∧
    (e.kind = 1 → 120 ≤ (updateEnemy K g dt e n).1.speedY ∧
        (updateEnemy K g dt e n).1.speedY ≤ 180) ∧
    (e.kind ≠ 2 → e.kind ≠ 1 → 160 ≤ (updateEnemy K g dt e n).1.speedY ∧
        (updateEnemy K g dt e n).1.speedY ≤ 260) := by
  unfold updateEnemy
  dsimp only
  rw [if_pos hy]
  dsimp only
  refine ⟨?_, ?_, ?_⟩
  · intro hk
    rw [if_pos hk]
    have hs := hg (n + 2) 40 180 (by norm_num)
    have hs1 : (40 : K) ≤ ((g (n + 2) 40 180 : ℤ) : K) := by exact_mod_cast hs.1
    have hs2 : ((g (n + 2) 40 180 : ℤ) : K) ≤ 180 := by exact_mod_cast hs.2
    exact ⟨by linarith, by linarith⟩
  · intro hk
    rw [if_neg (by rw [hk]; norm_num), if_pos hk]
    have hs := hg (n + 2) 20 80 (by norm_num)
    have hs1 : (20 : K) ≤ ((g (n + 2) 20 80 : ℤ) : K) := by exact_mod_cast hs.1
    have hs2 : ((g (n + 2) 20 80 : ℤ) : K) ≤ 80 := by exact_mod_cast hs.2
    exact ⟨by linarith, by linarith⟩
  · intro hk2 hk1
    rw [if_neg hk2, if_neg hk1]
    have hs := hg (n + 2) 20 120 (by norm_num)
    have hs1 : (20 : K) ≤ ((g (n + 2) 20 120 : ℤ) : K) := by exact_mod_cast hs.1
    have hs2 : ((g (n + 2) 20 120 : ℤ) : K) ≤ 120 := by exact_mod_cast hs.2
    exact ⟨by linarith, by linarith⟩

end Spawn

section Movement

theorem moveVec_x_sq (K : Type) [LinearOrderedField K] (kr kl kd ku : Bool)
    (h : (moveVec K kr kl kd ku).1 ≠ 0) :
    (moveVec K kr kl kd ku).1 * (moveVec K kr kl kd ku).1 = 1 := by
  rcases kr <;> rcases kl <;> simp [moveVec] at h ⊢ <;> norm_num

theorem moveVec_y_sq (K : Type) [LinearOrderedField K] (kr kl kd ku : Bool)
    (h : (moveVec K kr kl kd ku).2 ≠ 0) :
    (moveVec K kr kl kd ku).2 * (moveVec K kr kl kd ku).2 = 1 := by
  rcases kd <;> rcases ku <;> simp [moveVec] at h ⊢ <;> norm_num

theorem sqrt_norm_two (a b s t : ℝ) (ha : a * a = 1) (hb : b * b = 1)
    (hst : 0 ≤ s * t) :
    Real.sqrt ((a / Real.sqrt (a * a + b * b) * s * t) ^ 2 +
      (b / Real.sqrt (a * a + b * b) * s * t) ^ 2) = s * t := by
  rw [ha, hb]
  have h2 : (1 : ℝ) + 1 = 2 := by norm_num
  rw [h2]
  have hs2 : Real.sqrt 2 ^ 2 = 2 := Real.sq_sqrt (by norm_num)
  have key : (a / Real.sqrt 2 * s * t) ^ 2 + (b / Real.sqrt 2 * s * t) ^ 2 =
      (s * t) ^ 2 := by
    have e1 : (a / Real.sqrt 2 * s * t) ^ 2 =
        a * a * (s * t) ^ 2 / Real.sqrt 2 ^ 2 := by ring
    have e2 : (b / Real.sqrt 2 * s * t) ^ 2 =
        b * b * (s * t) ^ 2 / Real.sqrt 2 ^ 2 := by ring
    rw [e1, e2, hs2, ha, hb]
    ring
  rw [key]
  exact Real.sqrt_sq hst

theorem displacement_diag_norm (kr kl kd ku : Bool) (s t : ℝ) (hst : 0 ≤ s * t)
    (h1 : (moveVec ℝ kr kl kd ku).1 ≠ 0) (h2 : (moveVec ℝ kr kl kd ku).2 ≠ 0) :
    Real.sqrt ((displacement ℝ Real.sqrt kr kl kd ku s t).1 ^ 2 +
      (displacement ℝ Real.sqrt kr kl kd ku s t).2 ^ 2) = s * t := by
  have ha := moveVec_x_sq ℝ kr kl kd ku h1
  have hb := moveVec_y_sq ℝ kr kl kd ku h2
  have hd : displacement ℝ Real.sqrt kr kl kd ku s t =
      ((moveVec ℝ kr kl kd ku).1 / Real.sqrt
          ((moveVec ℝ kr kl kd ku).1 * (moveVec ℝ kr kl kd ku).1 +
            (moveVec ℝ kr kl kd ku).2 * (moveVec ℝ kr kl kd ku).2) * s * t,
       (moveVec ℝ kr kl kd ku).2 / Real.sqrt
          ((moveVec ℝ kr kl kd ku).1 * (moveVec ℝ kr kl kd ku).1 +
            (moveVec ℝ kr kl kd ku).2 * (moveVec ℝ kr kl kd ku).2) * s * t) := by
    unfold displacement normalizeMove
    dsimp only
    rw [if_pos (Or.inl h1)]
  rw [hd]
  exact sqrt_norm_two _ _ s t ha hb hst

end Movement

section Concrete

/-- A frame with no key pressed and zero frame time. -/
def inp0 : Inputs ℚ := ⟨false, false, false, false, false, false, false, false, false, false, false, 0⟩

/-- A frame pressing only the restart key R. -/
def inpR : Inputs ℚ := { inp0 with kR := true }

/-- A frame pressing both R and ESC. -/
def inpRE : Inputs ℚ := { inp0 with kR := true, kEsc := true }

/-- A frame pressing only ESC. -/
def inpEsc : Inputs ℚ := { inp0 with kEsc := true }

/-- A frame holding only the right key, with one second of frame time. -/
def inpC2 : Inputs ℚ := { inp0 with kRight := true, dt := 1 }

/-- The player as placed by `ResetGame`. -/
def p0 : Player ℚ := ⟨⟨382, 380, 36, 36⟩, 260⟩

/-- An enemy directly on top of the reset player position. -/
def e0 : Enemy ℚ := ⟨⟨382, 380, 10, 10⟩, 0, 0⟩

/-- A Playing state whose single enemy overlaps the player. -/
def sPlayC1 : GameSt ℚ := ⟨GameState.PLAYING, p0, [e0], 5, 2, 0, 0⟩

/-- A GameOver state with a nonzero score. -/
def sGO : GameSt ℚ := ⟨GameState.GAME_OVER, p0, [e0], 5, 2, 0, 0⟩

/-- Another GameOver state with a different score. -/
def sGO2 : GameSt ℚ := ⟨GameState.GAME_OVER, p0, [], 7, 3, 0, 0⟩

/-- A Playing state with the player partly off screen. -/
def sC2 : GameSt ℚ := ⟨GameState.PLAYING, ⟨⟨790, -600, 36, 36⟩, 260⟩, [], 0, 0, 0, 0⟩

/-- An Overcast enemy below the recycle line (y = 480 > 460). -/
def e480 : Enemy ℚ := ⟨⟨100, 480, 40, 24⟩, 0, 1⟩

end Concrete

section Claims

/-- Claim C1, counterexample to the GameOver part as stated: a frame that
begins in GameOver with the restart key R pressed performs a full reset,
so the score changes from 5 to 0 rather than staying unchanged. -/
theorem claim_C1_counterexample :
    sGO.state = GameState.GAME_OVER ∧ sGO.score = 5 ∧
      (frame ℚ gLo sqId inpR sGO).score = 0 :=
  ⟨rfl, rfl, rfl⟩

/-- Claim C1 (amended): in a Playing frame in which the box of some obstacle
overlaps the box of the player (both taken after the update of this frame, as the
code checks them), the state after the frame is GameOver and BestScore
becomes max(BestScore, floor(Score)) for the score before the frame;
and a frame beginning in GameOver with the restart key NOT pressed leaves
Score unchanged (a restart frame instead resets Score to 0). -/
theorem claim_C1 (K : Type) [LinearOrderedField K] [FloorRing K]
    (g : RNG) (sq : K → K) (inp : Inputs K) (s : GameSt K) :
    (s.state = GameState.PLAYING → 0 ≤ s.score →
      (∃ e ∈ (frame K g sq inp s).enemies,
        CheckCollisionRecs K (frame K g sq inp s).player.rect e.rect) →
      (frame K g sq inp s).state = GameState.GAME_OVER ∧
        (frame K g sq inp s).bestScore = max s.bestScore ⌊s.score⌋) ∧
    (s.state = GameState.GAME_OVER → inp.kR = false →
      (frame K g sq inp s).score = s.score) := by
  constructor
  · intro h hsc hex
    rw [frame_playing K g sq inp s h] at hex ⊢
    dsimp only at hex ⊢
    obtain ⟨h1, h2⟩ := stepEnemies_spec K g inp.dt (playingRect K sq inp s)
      s.score s.enemies GameState.PLAYING s.bestScore s.rngIdx
    have hct : ctrunc K s.score = ⌊s.score⌋ := by
      unfold ctrunc
      rw [if_pos hsc]
    constructor
    · rw [h1, if_pos hex]
    · rw [h2, if_pos hex, hct]
  · intro h hr
    exact frame_gameOver_score K g sq inp s h hr

/-- Claim C1 witness: a concrete overlapping Playing frame ends in
GameOver with BestScore max(2, floor 5) = 5, and a concrete GameOver
frame pressing only ESC keeps Score = 7. -/
theorem claim_C1_witness :
    ((frame ℚ gLo sqId inp0 sPlayC1).state = GameState.GAME_OVER ∧
      (frame ℚ gLo sqId inp0 sPlayC1).bestScore = max 2 ⌊(5 : ℚ)⌋) ∧
    (frame ℚ gLo sqId inpEsc sGO2).score = 7 :=
  ⟨(claim_C1 ℚ gLo sqId inp0 sPlayC1).1 rfl (by norm_num [sPlayC1])
      (by
        rw [frame_playing ℚ gLo sqId inp0 sPlayC1 rfl]
        norm_num [playingRect, sPlayC1, inp0, p0, e0, displacement, moveVec,
          normalizeMove, clampPlayer, stepEnemies, updateEnemy, ctrunc,
          CheckCollisionRecs, SCREEN_W, SCREEN_H, sqId, gLo]),
   (claim_C1 ℚ gLo sqId inpEsc sGO2).2 rfl rfl⟩

/-- Claim C2: after any Playing-state simulation step, whatever the key
inputs, frame time, square-root values and prior position, the bounding box of the player lies fully within
[0, screenWidth - width] x [0, screenHeight - height]
(the size of the player fits the screen, as the actual 36 x 36 player does). -/
theorem claim_C2 (K : Type) [LinearOrderedField K] [FloorRing K]
    (g : RNG) (sq : K → K) (inp : Inputs K) (s : GameSt K)
    (h : s.state = GameState.PLAYING)
    (hw : s.player.rect.width ≤ ((SCREEN_W : ℤ) : K))
    (hh : s.player.rect.height ≤ ((SCREEN_H : ℤ) : K)) :
    0 ≤ (frame K g sq inp s).player.rect.x ∧
      (frame K g sq inp s).player.rect.x ≤
        ((SCREEN_W : ℤ) : K) - (frame K g sq inp s).player.rect.width ∧
      0 ≤ (frame K g sq inp s).player.rect.y ∧
      (frame K g sq inp s).player.rect.y ≤
        ((SCREEN_H : ℤ) : K) - (frame K g sq inp s).player.rect.height := by
  rw [frame_playing K g sq inp s h]
  dsimp only
  simp only [playingRect]
  exact clampPlayer_bounds K _ hw hh

/-- Claim C2 witness: a concrete Playing step holding right with the player
partly off screen ends with the box inside the screen bounds. -/
theorem claim_C2_witness :
    0 ≤ (frame ℚ gLo sqId inpC2 sC2).player.rect.x ∧
      (frame ℚ gLo sqId inpC2 sC2).player.rect.x ≤
        ((SCREEN_W : ℤ) : ℚ) - (frame ℚ gLo sqId inpC2 sC2).player.rect.width ∧
      0 ≤ (frame ℚ gLo sqId inpC2 sC2).player.rect.y ∧
      (frame ℚ gLo sqId inpC2 sC2).player.rect.y ≤
        ((SCREEN_H : ℤ) : ℚ) - (frame ℚ gLo sqId inpC2 sC2).player.rect.height :=
  claim_C2 ℚ gLo sqId inpC2 sC2 rfl (by norm_num [sC2, SCREEN_W])
    (by norm_num [sC2, SCREEN_H])

/-- Claim C10: a GameOver frame with both the restart key R and the back
key ESC pressed performs the full reset (score 0, player and obstacles
respawned by ResetGame) and ends in Menu, not Playing: the ESC transition
overrides the R transition but the reset side effect of R still happens. -/
theorem claim_C10 (K : Type) [LinearOrderedField K] [FloorRing K]
    (g : RNG) (sq : K → K) (inp : Inputs K) (s : GameSt K)
    (h : s.state = GameState.GAME_OVER) (hr : inp.kR = true)
    (he : inp.kEsc = true) :
    (frame K g sq inp s).state = GameState.MENU ∧
      (frame K g sq inp s).score = 0 ∧
      (frame K g sq inp s).player =
        (ResetGame K g s.rngIdx s.gWeather ENEMY_COUNT s.player).1 ∧
      (frame K g sq inp s).enemies =
        (ResetGame K g s.rngIdx s.gWeather ENEMY_COUNT s.player).2.1 := by
  rw [frame_gameOver_restart K g sq inp s h hr he]
  exact ⟨rfl, rfl, rfl, rfl⟩

/-- Claim C10 witness: a concrete GameOver frame pressing R and ESC ends
in Menu with the reset player, enemies and zero score. -/
theorem claim_C10_witness :
    (frame ℚ gLo sqId inpRE sGO).state = GameState.MENU ∧
      (frame ℚ gLo sqId inpRE sGO).score = 0 ∧
      (frame ℚ gLo sqId inpRE sGO).player =
        (ResetGame ℚ gLo sGO.rngIdx sGO.gWeather ENEMY_COUNT sGO.player).1 ∧
      (frame ℚ gLo sqId inpRE sGO).enemies =
        (ResetGame ℚ gLo sGO.rngIdx sGO.gWeather ENEMY_COUNT sGO.player).2.1 :=
  claim_C10 ℚ gLo sqId inpRE sGO rfl rfl rfl

/-- Claim C3 counterexample: the RNG oracle that returns the upper bound
satisfies the RNG contract, yet a Reset under Overcast weather (kind 1)
spawns an obstacle with x = 760 and width = 72, so x + width = 832 > 800:
spawn x is NOT drawn from [0, screenWidth - obstacleWidth]. -/
theorem claim_C3_counterexample :
    RNGok gHi ∧ ∃ e ∈ (ResetGame ℚ gHi 0 1 1 p0).2.1,
      800 < e.rect.x + e.rect.width :=
  ⟨gHi_ok, by
    norm_num [ResetGame, spawnEnemies, spawnEnemy, gHi, SCREEN_W, SCREEN_H]⟩

/-- Claim C3 (amended): every obstacle produced by Reset has spawn
position x uniform in [0, screenWidth - 40] regardless of its width; so
x + width ≤ screenWidth holds for Clear and Precipitation obstacles
(widths at most 30), but not in general for Overcast obstacles (widths up
to 72). -/
theorem claim_C3 (K : Type) [LinearOrderedField K] [FloorRing K]
    (g : RNG) (hg : RNGok g) (w : ℤ) (n cnt : ℕ) (p : Player K) :
    ∀ e ∈ (ResetGame K g n w cnt p).2.1,
      (0 ≤ e.rect.x ∧ e.rect.x ≤ ((SCREEN_W : ℤ) : K) - 40) ∧
      (w ≠ 1 → e.rect.x + e.rect.width ≤ ((SCREEN_W : ℤ) : K)) := by
  unfold ResetGame
  dsimp only
  refine spawnEnemies_mem K g w _ ?_ cnt n
  intro m
  have hx := hg m 0 (SCREEN_W - 40) (by norm_num [SCREEN_W])
  have hx1 : (0 : K) ≤ ((g m 0 (SCREEN_W - 40) : ℤ) : K) := by
    exact_mod_cast hx.1
  have hx2 : ((g m 0 (SCREEN_W - 40) : ℤ) : K) ≤ ((SCREEN_W : ℤ) : K) - 40 := by
    have : ((g m 0 (SCREEN_W - 40) : ℤ) : K) ≤ ((SCREEN_W - 40 : ℤ) : K) := by
      exact_mod_cast hx.2
    push_cast at this
    linarith
  constructor
  · rw [spawnEnemy_x]
    exact ⟨hx1, hx2⟩
  · intro hw1
    by_cases hw2 : w = 2
    · rw [spawnEnemy_eq_two K g m w hw2]
      have hwd := hg (m + 2) 3 6 (by norm_num)
      have : ((g (m + 2) 3 6 : ℤ) : K) ≤ 6 := by exact_mod_cast hwd.2
      have hsw : ((SCREEN_W : ℤ) : K) = 800 := by norm_num [SCREEN_W]
      dsimp only
      rw [hsw] at hx2 ⊢
      linarith
    · rw [spawnEnemy_eq_other K g m w hw2 hw1]
      have hwd := hg (m + 2) 18 30 (by norm_num)
      have : ((g (m + 2) 18 30 : ℤ) : K) ≤ 30 := by exact_mod_cast hwd.2
      have hsw : ((SCREEN_W : ℤ) : K) = 800 := by norm_num [SCREEN_W]
      dsimp only
      rw [hsw] at hx2 ⊢
      linarith

/-- Claim C3 witness: the amended bounds hold for the one obstacle of a
concrete Reset with the lower-bound oracle and Precipitation weather. -/
theorem claim_C3_witness :
    (0 ≤ (spawnEnemy ℚ gLo 0 2).1.rect.x ∧
      (spawnEnemy ℚ gLo 0 2).1.rect.x ≤ ((SCREEN_W : ℤ) : ℚ) - 40) ∧
    ((2 : ℤ) ≠ 1 → (spawnEnemy ℚ gLo 0 2).1.rect.x +
      (spawnEnemy ℚ gLo 0 2).1.rect.width ≤ ((SCREEN_W : ℤ) : ℚ)) :=
  claim_C3 ℚ gLo gLo_ok 2 0 1 p0 (spawnEnemy ℚ gLo 0 2).1
    (by simp [ResetGame, spawnEnemies])

/-- Claim C5: a Reset with obstacle count N under Precipitation weather
(kind 2) produces exactly N obstacles, each with width in [3,6], height
in [14,24], fall speed in [220,360], and kind = Precipitation. -/
theorem claim_C5 (K : Type) [LinearOrderedField K] [FloorRing K]
    (g : RNG) (hg : RNGok g) (n cnt : ℕ) (p : Player K) :
    ((ResetGame K g n 2 cnt p).2.1).length = cnt ∧
    ∀ e ∈ (ResetGame K g n 2 cnt p).2.1,
      (3 ≤ e.rect.width ∧ e.rect.width ≤ 6) ∧
      (14 ≤ e.rect.height ∧ e.rect.height ≤ 24) ∧
      (220 ≤ e.speedY ∧ e.speedY ≤ 360) ∧ e.kind = 2 := by
  unfold ResetGame
  dsimp only
  constructor
  · exact spawnEnemies_length K g 2 cnt n
  refine spawnEnemies_mem K g 2 _ ?_ cnt n
  intro m
  rw [spawnEnemy_eq_two K g m 2 rfl]
  dsimp only
  have hw := hg (m + 2) 3 6 (by norm_num)
  have hh := hg (m + 3) 14 24 (by norm_num)
  have hs := hg (m + 4) 40 180 (by norm_num)
  have hw1 : (3 : K) ≤ ((g (m + 2) 3 6 : ℤ) : K) := by exact_mod_cast hw.1
  have hw2 : ((g (m + 2) 3 6 : ℤ) : K) ≤ 6 := by exact_mod_cast hw.2
  have hh1 : (14 : K) ≤ ((g (m + 3) 14 24 : ℤ) : K) := by exact_mod_cast hh.1
  have hh2 : ((g (m + 3) 14 24 : ℤ) : K) ≤ 24 := by exact_mod_cast hh.2
  have hs1 : (40 : K) ≤ ((g (m + 4) 40 180 : ℤ) : K) := by exact_mod_cast hs.1
  have hs2 : ((g (m + 4) 40 180 : ℤ) : K) ≤ 180 := by exact_mod_cast hs.2
  refine ⟨⟨hw1, hw2⟩, ⟨hh1, hh2⟩, ⟨by linarith, by linarith⟩, rfl⟩

/-- Claim C5 witness: a concrete Precipitation Reset with the lower-bound
oracle and N = 1. -/
theorem claim_C5_witness :
    ((ResetGame ℚ gLo 0 2 1 p0).2.1).length = 1 ∧
    ∀ e ∈ (ResetGame ℚ gLo 0 2 1 p0).2.1,
      (3 ≤ e.rect.width ∧ e.rect.width ≤ 6) ∧
      (14 ≤ e.rect.height ∧ e.rect.height ≤ 24) ∧
      (220 ≤ e.speedY ∧ e.speedY ≤ 360) ∧ e.kind = 2 :=
  claim_C5 ℚ gLo gLo_ok 0 1 p0

/-- Claim C9 counterexample: `SetWeather 5` stores the out-of-range value
unvalidated, and the following Reset produces an obstacle whose kind field
is 5, outside {Clear = 0, Overcast = 1, Precipitation = 2}: the value is
neither rejected nor clamped. -/
theorem claim_C9_counterexample :
    ∃ e ∈ (ResetGame ℚ gLo 0 (SetWeather 5 0) 1 p0).2.1,
      ¬(e.kind = 0 ∨ e.kind = 1 ∨ e.kind = 2) := by
  norm_num [ResetGame, spawnEnemies, spawnEnemy, SetWeather, gLo]

/-- Claim C9 (amended): the weather setter stores any integer without
validation; obstacle generation after setting an out-of-range value falls
back to the Clear branch, so sizes and speeds remain within the Clear
ranges (square with side in [18,30], speed in [160,260]), but the kind field of each
obstacle equals the raw out-of-range value rather than one of
the three kinds. -/
theorem claim_C9 (K : Type) [LinearOrderedField K] [FloorRing K]
    (g : RNG) (hg : RNGok g) (k : ℤ) (hk1 : k ≠ 1) (hk2 : k ≠ 2)
    (w0 : ℤ) (n cnt : ℕ) (p : Player K) :
    ∀ e ∈ (ResetGame K g n (SetWeather k w0) cnt p).2.1,
      e.kind = k ∧ (18 ≤ e.rect.width ∧ e.rect.width ≤ 30) ∧
      e.rect.height = e.rect.width ∧ (160 ≤ e.speedY ∧ e.speedY ≤ 260) := by
  unfold ResetGame SetWeather
  dsimp only
  refine spawnEnemies_mem K g k _ ?_ cnt n
  intro m
  rw [spawnEnemy_eq_other K g m k hk2 hk1]
  dsimp only
  have hw := hg (m + 2) 18 30 (by norm_num)
  have hs := hg (m + 3) 20 120 (by norm_num)
  have hw1 : (18 : K) ≤ ((g (m + 2) 18 30 : ℤ) : K) := by exact_mod_cast hw.1
  have hw2 : ((g (m + 2) 18 30 : ℤ) : K) ≤ 30 := by exact_mod_cast hw.2
  have hs1 : (20 : K) ≤ ((g (m + 3) 20 120 : ℤ) : K) := by exact_mod_cast hs.1
  have hs2 : ((g (m + 3) 20 120 : ℤ) : K) ≤ 120 := by exact_mod_cast hs.2
  exact ⟨rfl, ⟨hw1, hw2⟩, rfl, ⟨by linarith, by linarith⟩⟩

/-- Claim C9 witness: the amended behaviour for the one obstacle spawned
after setting the concrete out-of-range value 5, with the lower-bound
oracle. -/
theorem claim_C9_witness :
    (spawnEnemy ℚ gLo 0 5).1.kind = 5 ∧
    (18 ≤ (spawnEnemy ℚ gLo 0 5).1.rect.width ∧
      (spawnEnemy ℚ gLo 0 5).1.rect.width ≤ 30) ∧
    (spawnEnemy ℚ gLo 0 5).1.rect.height = (spawnEnemy ℚ gLo 0 5).1.rect.width ∧
    (160 ≤ (spawnEnemy ℚ gLo 0 5).1.speedY ∧
      (spawnEnemy ℚ gLo 0 5).1.speedY ≤ 260) :=
  claim_C9 ℚ gLo gLo_ok 5 (by norm_num) (by norm_num) 0 0 1 p0
    (spawnEnemy ℚ gLo 0 5).1 (by simp [ResetGame, spawnEnemies, SetWeather])

/-- Claim C4 counterexample: the recycle position is NOT drawn from the
same ranges as at spawn.  A spawn can place an obstacle at
y = -screenHeight = -450 (lower-bound oracle, Overcast), but no RNG oracle
satisfying the contract can make a recycle produce y = -450, because the
recycle call passes the narrower bounds (-200, -20). -/
theorem claim_C4_counterexample :
    (∃ g2, RNGok g2 ∧ (spawnEnemy ℚ g2 0 1).1.rect.y = -450) ∧
    ∀ g2 n, RNGok g2 → (updateEnemy ℚ g2 0 e480 n).1.rect.y ≠ -450 := by
  constructor
  · refine ⟨gLo, gLo_ok, ?_⟩
    norm_num [spawnEnemy, gLo, SCREEN_W, SCREEN_H]
  · intro g2 n hg2
    rw [updateEnemy_recycle_y ℚ g2 0 e480 n (by norm_num [e480, SCREEN_H])]
    have h := (hg2 n (-200) (-20) (by norm_num)).1
    intro heq
    have h2 : (g2 n (-200) (-20) : ℤ) = -450 := by exact_mod_cast heq
    omega

/-- Claim C4 (amended): the new x of a recycled obstacle is uniform in
[0, screenWidth - width] and its new y is uniform in [-200, -20] — a
narrower band than the spawn range [-screenHeight, -20], and an x range
that differs from the fixed spawn range [0, screenWidth - 40].  Every value of
the recycle y range is attainable by some contract-satisfying oracle. -/
theorem claim_C4 (K : Type) [LinearOrderedField K] [FloorRing K]
    (g : RNG) (hg : RNGok g) (dt : K) (e : Enemy K) (n : ℕ) (wi : ℤ)
    (hwz : e.rect.width = (wi : K)) (hw0 : 0 ≤ wi) (hw8 : wi ≤ SCREEN_W)
    (hy : (SCREEN_H : K) + 10 < e.rect.y + e.speedY * dt) :
    ((-200 ≤ (updateEnemy K g dt e n).1.rect.y ∧
        (updateEnemy K g dt e n).1.rect.y ≤ -20) ∧
      (0 ≤ (updateEnemy K g dt e n).1.rect.x ∧
        (updateEnemy K g dt e n).1.rect.x + e.rect.width ≤ ((SCREEN_W : ℤ) : K))) ∧
    (∀ v : ℤ, -200 ≤ v → v ≤ -20 →
      ∃ g2, RNGok g2 ∧ (updateEnemy K g2 dt e n).1.rect.y = (v : K)) := by
  constructor
  · exact updateEnemy_pos_bounds K g hg dt e n wi hwz hw0 hw8 hy
  · intro v hv1 hv2
    refine ⟨fun _ lo hi => max lo (min v hi), ?_, ?_⟩
    · intro m lo hi hle
      exact ⟨le_max_left lo _, max_le hle (min_le_right v hi)⟩
    · rw [updateEnemy_recycle_y K _ dt e n hy]
      have hm : max (-200 : ℤ) (min v (-20)) = v := by
        rw [min_eq_left hv2, max_eq_right hv1]
      rw [hm]

/-- Claim C4 witness: the amended recycle ranges at a concrete Overcast
obstacle of width 40 below the recycle line. -/
theorem claim_C4_witness :
    ((-200 ≤ (updateEnemy ℚ gLo 0 e480 0).1.rect.y ∧
        (updateEnemy ℚ gLo 0 e480 0).1.rect.y ≤ -20) ∧
      (0 ≤ (updateEnemy ℚ gLo 0 e480 0).1.rect.x ∧
        (updateEnemy ℚ gLo 0 e480 0).1.rect.x + e480.rect.width ≤
          ((SCREEN_W : ℤ) : ℚ))) ∧
    (∀ v : ℤ, -200 ≤ v → v ≤ -20 →
      ∃ g2, RNGok g2 ∧ (updateEnemy ℚ g2 0 e480 0).1.rect.y = (v : ℚ)) :=
  claim_C4 ℚ gLo gLo_ok 0 e480 0 40 (by norm_num [e480]) (by norm_num)
    (by norm_num [SCREEN_W]) (by norm_num [e480, SCREEN_H])

/-- Claim C6: recycling an obstacle whose fallen position exceeds
screenHeight + 10 yields y in [-200, -20], x in [0, screenWidth - width]
for its own (integer, screen-fitting) width, a speed within the range of its kind (rain [220,360], cloud [120,180], sun and any other kind value
[160,260]), and an unchanged kind field. -/
theorem claim_C6 (K : Type) [LinearOrderedField K] [FloorRing K]
    (g : RNG) (hg : RNGok g) (dt : K) (e : Enemy K) (n : ℕ) (wi : ℤ)
    (hwz : e.rect.width = (wi : K)) (hw0 : 0 ≤ wi) (hw8 : wi ≤ SCREEN_W)
    (hy : (SCREEN_H : K) + 10 < e.rect.y + e.speedY * dt) :
    (-200 ≤ (updateEnemy K g dt e n).1.rect.y ∧
      (updateEnemy K g dt e n).1.rect.y ≤ -20) ∧
    (0 ≤ (updateEnemy K g dt e n).1.rect.x ∧
      (updateEnemy K g dt e n).1.rect.x + e.rect.width ≤ ((SCREEN_W : ℤ) : K)) ∧
    ((e.kind = 2 → 220 ≤ (updateEnemy K g dt e n).1.speedY ∧
        (updateEnemy K g dt e n).1.speedY ≤ 360) ∧
      (e.kind = 1 → 120 ≤ (updateEnemy K g dt e n).1.speedY ∧
        (updateEnemy K g dt e n).1.speedY ≤ 180) ∧
      (e.kind ≠ 2 → e.kind ≠ 1 → 160 ≤ (updateEnemy K g dt e n).1.speedY ∧
        (updateEnemy K g dt e n).1.speedY ≤ 260)) ∧
    (updateEnemy K g dt e n).1.kind = e.kind := by
  obtain ⟨hpy, hpx⟩ := updateEnemy_pos_bounds K g hg dt e n wi hwz hw0 hw8 hy
  exact ⟨hpy, hpx, updateEnemy_speed_bounds K g hg dt e n hy,
    updateEnemy_kind K g dt e n⟩

/-- Claim C6 witness: the recycle ranges at a concrete Overcast obstacle
of width 40 below the recycle line, with the lower-bound oracle. -/
theorem claim_C6_witness :
    (-200 ≤ (updateEnemy ℚ gLo 0 e480 0).1.rect.y ∧
      (updateEnemy ℚ gLo 0 e480 0).1.rect.y ≤ -20) ∧
    (0 ≤ (updateEnemy ℚ gLo 0 e480 0).1.rect.x ∧
      (updateEnemy ℚ gLo 0 e480 0).1.rect.x + e480.rect.width ≤
        ((SCREEN_W : ℤ) : ℚ)) ∧
    ((e480.kind = 2 → 220 ≤ (updateEnemy ℚ gLo 0 e480 0).1.speedY ∧
        (updateEnemy ℚ gLo 0 e480 0).1.speedY ≤ 360) ∧
      (e480.kind = 1 → 120 ≤ (updateEnemy ℚ gLo 0 e480 0).1.speedY ∧
        (updateEnemy ℚ gLo 0 e480 0).1.speedY ≤ 180) ∧
      (e480.kind ≠ 2 → e480.kind ≠ 1 →
        160 ≤ (updateEnemy ℚ gLo 0 e480 0).1.speedY ∧
        (updateEnemy ℚ gLo 0 e480 0).1.speedY ≤ 260)) ∧
    (updateEnemy ℚ gLo 0 e480 0).1.kind = e480.kind :=
  claim_C6 ℚ gLo gLo_ok 0 e480 0 40 (by norm_num [e480]) (by norm_num)
    (by norm_num [SCREEN_W]) (by norm_num [e480, SCREEN_H])

/-- Claim C7: for any Playing-step key input producing a diagonal
direction (both movement components nonzero) and Δt > 0, the magnitude of
the displacement of the player before clamping is exactly playerSpeed·Δt
(not playerSpeed·Δt·√2); and when the key input produces the zero vector
the normalization is skipped and the displacement is zero. -/
theorem claim_C7 (kr kl kd ku : Bool) (speed dt : ℝ) (hs : 0 ≤ speed)
    (ht : 0 < dt) :
    ((moveVec ℝ kr kl kd ku).1 ≠ 0 → (moveVec ℝ kr kl kd ku).2 ≠ 0 →
      Real.sqrt ((displacement ℝ Real.sqrt kr kl kd ku speed dt).1 ^ 2 +
        (displacement ℝ Real.sqrt kr kl kd ku speed dt).2 ^ 2) = speed * dt) ∧
    (moveVec ℝ kr kl kd ku = (0, 0) →
      displacement ℝ Real.sqrt kr kl kd ku speed dt = (0, 0)) := by
  constructor
  · intro h1 h2
    exact displacement_diag_norm kr kl kd ku speed dt (mul_nonneg hs ht.le) h1 h2
  · intro h0
    simp [displacement, normalizeMove, h0]

/-- Claim C7 witness: holding right and down with speed 260 and Δt = 1
gives displacement magnitude 260 · 1. -/
theorem claim_C7_witness :
    Real.sqrt ((displacement ℝ Real.sqrt true false true false 260 1).1 ^ 2 +
      (displacement ℝ Real.sqrt true false true false 260 1).2 ^ 2) = 260 * 1 :=
  (claim_C7 true false true false 260 1 (by norm_num) (by norm_num)).1
    (by norm_num [moveVec]) (by norm_num [moveVec])

/-- Claim C8 counterexample: with Δt = -1 and only the right key held the
displacement computed by the code is (-260, 0), not zero: non-positive Δt is NOT treated
as a no-op displacement (there is no clamp of Δt in the code). -/
theorem claim_C8_counterexample :
    (displacement ℝ Real.sqrt true false false false 260 (-1)).1 = -260 ∧
      (-260 : ℝ) ≠ 0 := by
  constructor
  · norm_num [displacement, normalizeMove, moveVec, Real.sqrt_one]
  · norm_num

/-- Claim C8 (amended): a Playing-state step with Δt = 0 produces zero
displacement, whatever keys are held and whatever the square-root values;
a negative Δt is not clamped by the code and produces a backward
displacement. -/
theorem claim_C8 (K : Type) [LinearOrderedField K] [FloorRing K] (sq : K → K)
    (kr kl kd ku : Bool) (speed : K) :
    displacement K sq kr kl kd ku speed 0 = (0, 0) := by
  simp [displacement]

end Claims

end Dodge
